import Mathlib

/-!
Verification development for the SALegalChatbot browser chat controller
(`src/static/js/main.js`, with the earlier variant `src/unnamed/part_000`).

The JavaScript is shallowly embedded as pure Lean functions:

* JS strings are `String` / `List Char`; all Source fields are optional
  strings in JS and are modelled as `String` with `""` standing for an
  absent (or otherwise falsy) field — every use site in the source reads
  the fields only through JS truthiness, for which `undefined`, `null`
  and `""` behave identically.
* The one regular expression family the code builds,
  `\(?\s*ESC(citation)\s*\)?(?!\s*\[\d+\])` with flag `g`
  (`applyInlineCitations`, main.js lines 233-240), is embedded as an
  explicit backtracking matcher (`tryMatch`) over `List Char`, with
  greedy `\s*`/`(?`/`)?` tried longest/consumed-first exactly as a JS
  regex engine does, and `String.replace`'s global scan embedded as
  `regexReplaceAll` (left-to-right, non-overlapping, the replacement text
  is not rescanned).  `escapeRegExp` makes the citation verbatim, so the
  embedded matcher compares the citation characters literally.
  `$`-escape sequences in the replacement string are not modelled: the
  replacement the code builds (`citation + " " + marker`) contains `$`
  only if the citation text does, which no claim exercises.
* `\s` is modelled by `jsWs` (ASCII whitespace); JS string `.length` /
  `.slice` count UTF-16 units while Lean counts code points — identical
  on the texts the claims quantify over, and the difference is
  orthogonal to every claim.
* The DOM is modelled by its observable content: the message list, the
  rendered history panel and sources panel, the input value and the
  loading / empty-state indicators, collected in `UIState`.
* The dynamically-typed JSON response of `POST /ask` is modelled by
  `JStrVal` / `JArrVal`, which record exactly what the code observes of
  a field: whether it is absent, a string / an array (with its value),
  or some other JS value together with its truthiness.  A thrown JS
  exception is `Except.error ()`, caught at the `try/catch` boundary of
  `sendMessage` as in the source.
-/

/-- JS `\s` / whitespace used by `trim`, restricted to the ASCII range
(the code points beyond ASCII never occur in the claims). -/
def jsWs (c : Char) : Bool :=
  c = ' ' || c = '\t' || c = '\n' || c = '\r' || c = '\x0b' || c = '\x0c'

/-- JS `String.prototype.trim` over the modelled whitespace set. -/
def jsTrim (s : String) : String :=
  ⟨((s.data.dropWhile jsWs).reverse.dropWhile jsWs).reverse⟩

/-- A Source record of the `/ask` response (main.js usage sites).  All
fields are optional strings in JS; `""` models an absent field, which is
observationally identical at every (truthiness-based) use site. -/
structure Source where
  case_name : String := ""
  neutral_citation : String := ""
  citation : String := ""
  court : String := ""
  judgment_date : String := ""
  summary : String := ""
  saflii_url : String := ""
  pdf_url : String := ""
deriving DecidableEq

/-- One successful round-trip, as pushed onto `chatHistory`
(main.js lines 439-444). -/
structure Exchange where
  query : String
  answer : String
  sources : List Source
  time : String
deriving DecidableEq

-- =======================
-- Embedded regex engine for
--   \(?\s*ESC(cit)\s*\)?(?!\s*\[\d+\])   (flag g)
-- =======================

/-- The negative lookahead `(?!\s*\[\d+\])`: true iff `\s*\[\d+\]`
matches at the start of `s`.  Inside the lookahead `\s*` is greedy; only
the maximal whitespace run can be followed by `[`, and only the maximal
digit run can be followed by `]`, so no backtracking is observable. -/
def lookaheadBlocks (s : List Char) : Bool :=
  match s.dropWhile jsWs with
  | '[' :: rest =>
      (!(rest.takeWhile Char.isDigit).isEmpty) &&
      (match rest.dropWhile Char.isDigit with
       | ']' :: _ => true
       | _ => false)
  | _ => false

/-- All ways the greedy `\s*` can leave a suffix of `s`, longest
consumption first (the order a JS engine tries them in). -/
def wsTails : List Char → List (List Char)
  | [] => [[]]
  | c :: rest => if jsWs c then wsTails rest ++ [c :: rest] else [c :: rest]

/-- `\)?(?!\s*\[\d+\])` at `s`: greedy `)?` first, then the lookahead;
returns the unconsumed suffix of the first way that succeeds. -/
def matchEF (s : List Char) : Option (List Char) :=
  match s with
  | c :: rest =>
      if c = ')' then
        if lookaheadBlocks rest = false then some rest
        else if lookaheadBlocks (c :: rest) = false then some (c :: rest)
        else none
      else if lookaheadBlocks (c :: rest) = false then some (c :: rest) else none
  | [] => if lookaheadBlocks [] = false then some [] else none

/-- `\s*\)?(?!\s*\[\d+\])` at `s`, with the greedy `\s*` backtracking. -/
def matchDEF (s : List Char) : Option (List Char) :=
  (wsTails s).findSome? matchEF

/-- `ESC(cit)\s*\)?(?!...)` at `s`: the escaped citation matches
verbatim, then the tail of the pattern. -/
def matchCDEF (cit : List Char) (s : List Char) : Option (List Char) :=
  if cit.isPrefixOf s then matchDEF (s.drop cit.length) else none

/-- `\s*ESC(cit)\s*\)?(?!...)` at `s`, greedy leading `\s*`. -/
def matchBCDEF (cit : List Char) (s : List Char) : Option (List Char) :=
  (wsTails s).findSome? (matchCDEF cit)

/-- The whole pattern `\(?\s*ESC(cit)\s*\)?(?!\s*\[\d+\])` anchored at
`s`: the greedy `\(?` first consumes a real `(` and falls back to the
empty alternative, as in a JS engine. -/
def tryMatch (cit : List Char) (s : List Char) : Option (List Char) :=
  match s with
  | c :: rest =>
      if c = '(' then
        match matchBCDEF cit rest with
        | some r => some r
        | none => matchBCDEF cit (c :: rest)
      else matchBCDEF cit (c :: rest)
  | [] => matchBCDEF cit []

/-- `String.prototype.replace` with a `g`-flagged regex: scan left to
right, replace each (non-overlapping) match, never rescan the
replacement.  Recursion is on a fuel equal to the input length, which
suffices because every step consumes at least one input character. -/
def replaceLoopF (cit repl : List Char) : Nat → List Char → List Char
  | _, [] => []
  | 0, s => s
  | fuel + 1, c :: rest =>
      match tryMatch cit (c :: rest) with
      | some after => repl ++ replaceLoopF cit repl fuel after
      | none => c :: replaceLoopF cit repl fuel rest

/-- `text.replace(pattern, repl)` for the citation pattern built from
`cit` (main.js lines 245-248). -/
def regexReplaceAll (cit repl : List Char) (s : List Char) : List Char :=
  replaceLoopF cit repl s.length s

-- =======================
-- Inline citations (main.js lines 218-252)
-- =======================

/-- `s.neutral_citation || s.citation` (main.js line 230). -/
def citationOf (s : Source) : String :=
  if s.neutral_citation ≠ "" then s.neutral_citation else s.citation

/-- The marker the code interpolates for source `index`
(main.js line 242). -/
def markerFor (index : Nat) : String :=
  "<button type=\"button\" class=\"btn btn-link p-0 citation-link\" data-source-index=\""
    ++ toString index ++ "\">[" ++ toString (index + 1) ++ "]</button>"

/-- One iteration of the `sources.forEach` body of `applyInlineCitations`
(main.js lines 228-249): skip a source whose citation is falsy, else
globally replace the flexible pattern by `citation + " " + marker`. -/
def annotateOne (acc : String) (index : Nat) (s : Source) : String :=
  let citation := citationOf s
  if citation = "" then acc
  else
    ⟨regexReplaceAll citation.data
      (citation ++ " " ++ markerFor index).data acc.data⟩

/-- The `sources.forEach((s, index) => ...)` loop: later sources operate
on the already-partially-annotated text. -/
def annotateFrom : Nat → String → List Source → String
  | _, acc, [] => acc
  | i, acc, s :: rest => annotateFrom (i + 1) (annotateOne acc i s) rest

/-- `applyInlineCitations` (main.js lines 223-252). -/
def applyInlineCitations (answerText : String) (sources : List Source) : String :=
  if answerText = "" ∨ sources = [] then answerText
  else annotateFrom 0 answerText sources

-- =======================
-- Rendering (main.js lines 310-390, 172-212)
-- =======================

/-- One rendered entry of the history panel (main.js lines 319-334):
the number after `Query #`, the truncated query snippet, the recorded
timestamp. -/
structure HistoryEntry where
  label : Nat
  snippet : String
  time : String
deriving DecidableEq

/-- The truncation of `renderHistory` (main.js lines 320-321):
`item.query.length > 60 ? item.query.slice(0, 60) + "…" : item.query`. -/
def snippetOf (q : String) : String :=
  if q.length > 60 then q.take 60 ++ "…" else q

/-- `chatHistory.forEach((item, index) => ...)` of `renderHistory`,
with the running index made explicit. -/
def renderHistoryFrom : Nat → List Exchange → List HistoryEntry
  | _, [] => []
  | i, item :: rest =>
      { label := i + 1, snippet := snippetOf item.query, time := item.time }
        :: renderHistoryFrom (i + 1) rest

/-- `renderHistory` (main.js lines 310-335) as a pure view of the
history list; the empty list stands for the "No questions yet."
placeholder. -/
def renderHistory (h : List Exchange) : List HistoryEntry :=
  renderHistoryFrom 0 h

/-- One rendered side-panel card (main.js lines 346-388).  `none` in an
optional component means the corresponding markup fragment is omitted
(the empty string was interpolated); a link field carries the `href`. -/
structure SourceCard where
  badge : Nat
  caseName : String
  citation : String
  courtShown : Option String
  dateShown : Option String
  summaryText : String
  safliiLink : Option String
  pdfLink : Option String
deriving DecidableEq

/-- The card built for source `s` at 0-based position `i`
(main.js lines 346-386). -/
def renderSourceCard (i : Nat) (s : Source) : SourceCard :=
  { badge := i + 1
    caseName := if s.case_name = "" then "Unknown Case" else s.case_name
    citation :=
      if s.neutral_citation ≠ "" then s.neutral_citation
      else if s.citation ≠ "" then s.citation else ""
    courtShown := if s.court = "" then none else some s.court
    dateShown := if s.judgment_date = "" then none else some s.judgment_date
    summaryText := s.summary
    safliiLink := if s.saflii_url = "" then none else some s.saflii_url
    pdfLink := if s.pdf_url = "" then none else some s.pdf_url }

/-- `sources.forEach((s, index) => ...)` of `renderSources`. -/
def renderSourcesFrom : Nat → List Source → List SourceCard
  | _, [] => []
  | i, s :: rest => renderSourceCard i s :: renderSourcesFrom (i + 1) rest

/-- `renderSources` (main.js lines 337-390); the empty list stands for
the "No sources yet." placeholder. -/
def renderSources (sources : List Source) : List SourceCard :=
  renderSourcesFrom 0 sources

/-- The populated source modal (main.js `openSourceModal`,
lines 172-212): title, the meta line's parts in order, the body text and
the `href`s of the link buttons in order. -/
structure ModalView where
  title : String
  metaParts : List String
  body : String
  links : List String
deriving DecidableEq

/-- `openSourceModal` (main.js lines 172-212) as a pure view of the one
Source it is given. -/
def openSourceModalView (source : Source) : ModalView :=
  let citation :=
    if source.neutral_citation ≠ "" then source.neutral_citation
    else if source.citation ≠ "" then source.citation else ""
  { title := if source.case_name = "" then "Case details" else source.case_name
    metaParts :=
      (if citation ≠ "" then [citation] else [])
        ++ (if source.court ≠ "" then [source.court] else [])
        ++ (if source.judgment_date ≠ "" then [source.judgment_date] else [])
    body :=
      if source.summary = "" then "No summary available for this source."
      else source.summary
    links :=
      (if source.saflii_url ≠ "" then [source.saflii_url] else [])
        ++ (if source.pdf_url ≠ "" then [source.pdf_url] else []) }

-- =======================
-- Citation marker wiring (main.js lines 291-301)
-- =======================

/-- The maximal leading digit run of `l` as a number, `none` when there
is none — the success/`NaN` behaviour of radix-10 `parseInt` after sign
handling. -/
def leadingDigits (l : List Char) : Option Nat :=
  let ds := l.takeWhile Char.isDigit
  if ds.isEmpty then none
  else some (ds.foldl (fun a c => a * 10 + (c.toNat - '0'.toNat)) 0)

/-- JS `parseInt(str, 10)`: skip leading whitespace, optional sign,
then the maximal digit prefix; `none` models `NaN`. -/
def jsParseInt (s : String) : Option Int :=
  match s.data.dropWhile jsWs with
  | '+' :: rest => (leadingDigits rest).map Int.ofNat
  | '-' :: rest => (leadingDigits rest).map (fun n => -(Int.ofNat n))
  | rest => (leadingDigits rest).map Int.ofNat

/-- The citation-button wiring of `addBotMessage` (main.js lines
291-301): the Source a marker's click handler captures, or `none` when
no handler is attached (empty/absent source list, `NaN` index, negative
index, or index past the end — `sourcesForMessage[idx]` is `undefined`,
hence falsy). -/
def wireCitation (sourcesForMessage : List Source) (attr : String) : Option Source :=
  if sourcesForMessage = [] then none
  else
    match jsParseInt attr with
    | none => none
    | some idx => if idx < 0 then none else sourcesForMessage[idx.toNat]?

-- =======================
-- UI state machine (main.js lines 19-20, 107-117, 258-304, 392-457)
-- =======================

/-- A rendered chat bubble: a user message (with `\n` already turned
into `<br>`) or a bot message together with the source list its
citation markers are wired against (`[]` for the `null` of the error
call at main.js line 450). -/
inductive Message where
  | userMsg (html : String)
  | botMsg (html : String) (sources : List Source)
deriving DecidableEq

/-- The error bubble of the `catch` branch (main.js lines 450-452). -/
def errorHtml : String :=
  "<span class=\"text-danger\">⚠️ Error connecting to server. Please try again.</span>"

/-- The observable page state: the mutable JS globals plus the rendered
content of the message list, history panel and sources panel. -/
structure UIState where
  chatHistory : List Exchange
  isThinking : Bool
  queryValue : String
  messages : List Message
  historyPanel : List HistoryEntry
  sourcesPanel : List SourceCard
  loadingShown : Bool
  sendBtnDisabled : Bool
  emptyStateShown : Bool
deriving DecidableEq

/-- `updateSendState` (main.js lines 107-111). -/
def updateSendState (st : UIState) : UIState :=
  { st with sendBtnDisabled := jsTrim st.queryValue = "" || st.isThinking }

/-- `setThinking` (main.js lines 113-117). -/
def setThinking (b : Bool) (st : UIState) : UIState :=
  updateSendState { st with isThinking := b, loadingShown := b }

/-- `hideEmptyState` (main.js lines 37-47). -/
def hideEmptyState (st : UIState) : UIState :=
  { st with emptyStateShown := false }

/-- `addEmptyState` (main.js lines 50-103): clears the message list and
shows the placeholder/empty view again. -/
def addEmptyState (st : UIState) : UIState :=
  { st with messages := [], emptyStateShown := true }

/-- `text.replace(/\n/g, "<br>")` of `addUserMessage`
(main.js line 264). -/
def nlToBr (s : String) : String :=
  s.replace "\n" "<br>"

/-- `addUserMessage` (main.js lines 258-268). -/
def addUserMessage (text : String) (st : UIState) : UIState :=
  let st1 := hideEmptyState st
  { st1 with messages := st1.messages ++ [Message.userMsg (nlToBr text)] }

/-- `addBotMessage` (main.js lines 270-304); the citation wiring it
performs per marker is `wireCitation` against `srcs`. -/
def addBotMessage (html : String) (srcs : List Source) (st : UIState) : UIState :=
  let st1 := hideEmptyState st
  { st1 with messages := st1.messages ++ [Message.botMsg html srcs] }

/-- `resetConversation` (main.js lines 392-399).  Note the source calls
`renderHistory()` over the — never cleared — `chatHistory`. -/
def resetConversation (st : UIState) : UIState :=
  let st1 := addEmptyState st
  let st2 := { st1 with historyPanel := renderHistory st1.chatHistory }
  let st3 := { st2 with sourcesPanel := renderSources [] }
  let st4 := { st3 with queryValue := "" }
  let st5 := setThinking false st4
  updateSendState st5

-- =======================
-- The /ask response as seen by the code (main.js lines 422-447)
-- =======================

/-- What the code can observe of `data.answer`: absent (`undefined` /
`null`), an actual string, or some other JS value of which only the
truthiness matters before `.replace` throws on it. -/
inductive JStrVal where
  | absent
  | str (s : String)
  | nonStr (truthy : Bool)
deriving DecidableEq

/-- JS truthiness of a `JStrVal`. -/
def JStrVal.truthy : JStrVal → Bool
  | .absent => false
  | .str s => s ≠ ""
  | .nonStr t => t

/-- What the code can observe of `data.sources`: absent, an actual
array of Sources, or some other JS value with its truthiness. -/
inductive JArrVal where
  | absent
  | arr (xs : List Source)
  | nonArr (truthy : Bool)
deriving DecidableEq

/-- JS truthiness of a `JArrVal`; arrays are always truthy. -/
def JArrVal.truthy : JArrVal → Bool
  | .absent => false
  | .arr _ => true
  | .nonArr t => t

/-- `data.answer || ""` (main.js line 424). -/
def jsOrEmptyStr (v : JStrVal) : JStrVal :=
  if v.truthy then v else .str ""

/-- `data.sources || []` (main.js line 423). -/
def jsOrEmptyArr (v : JArrVal) : JArrVal :=
  if v.truthy then v else .arr []

/-- `applyInlineCitations` called on the dynamic values
(main.js lines 223-252 under lines 427): the guard returns falsy
answers and falsy/empty source lists unchanged; a non-array truthy
`sources` throws at `sources.forEach`; a truthy non-string answer
throws at `annotated.replace` as soon as a source with a truthy
citation is reached. -/
def applyInlineCitationsJ (answerText : JStrVal) (sources : JArrVal) :
    Except Unit JStrVal :=
  if answerText.truthy = false ∨ sources.truthy = false then .ok answerText
  else
    match sources with
    | .arr xs =>
        if xs = [] then .ok answerText
        else
          match answerText with
          | .str s => .ok (.str (applyInlineCitations s xs))
          | a => if xs.any (fun src => citationOf src ≠ "") then .error () else .ok a
    | .nonArr _ => .error ()
    | .absent => .ok answerText

/-- Modelled from the spec: the external Markdown renderer
(`render(markdownText) → safeHTML`, spec §6 "Markdown rendering") is an
absent collaborator; it is modelled as an arbitrary function `mp` on
strings, and handing it a non-string is modelled as a thrown error.  No
claim depends on the non-string branch. -/
def markedParseJ (mp : String → String) : JStrVal → Except Unit String
  | .str s => .ok (mp s)
  | _ => .error ()

/-- The body of the `try` block after `res.json()` succeeded
(main.js lines 423-447), operating on `rawAnswer = data.answer || ""`
and `srcs = data.sources || []`; any thrown error falls to the error
bubble of the `catch` branch. -/
def handleData (mp : String → String) (query now : String) (st : UIState)
    (rawAnswer : JStrVal) (srcs : JArrVal) : UIState :=
  match applyInlineCitationsJ rawAnswer srcs with
  | .error _ => addBotMessage errorHtml [] st
  | .ok annotated =>
      match markedParseJ mp annotated with
      | .error _ => addBotMessage errorHtml [] st
      | .ok html =>
          let srcList := match srcs with | .arr xs => xs | _ => []
          let answerStr := match rawAnswer with | .str s => s | _ => ""
          let st1 := addBotMessage html srcList st
          let newHistory := st1.chatHistory ++
            [{ query := query, answer := answerStr, sources := srcList,
               time := now }]
          { st1 with
              chatHistory := newHistory,
              historyPanel := renderHistory newHistory,
              sourcesPanel := renderSources srcList }

/-- `sendMessage` (main.js lines 405-457).  `response` is the outcome
the network hands the completion callback: `none` when `fetch` rejects
or `res.json()` throws, `some (answer, sources)` for a parsed JSON body
(absent fields as `.absent`).  The returned `Bool` records whether a
request was issued at all.  `mp` is the external Markdown renderer and
`now` the formatted timestamp. -/
def sendMessage (mp : String → String) (now : String) (st : UIState)
    (response : Option (JStrVal × JArrVal)) : UIState × Bool :=
  let query := jsTrim st.queryValue
  if query = "" ∨ st.isThinking = true then (st, false)
  else
    let st1 := setThinking true st
    let st2 := addUserMessage query st1
    let st3 := updateSendState { st2 with queryValue := "" }
    let st4 :=
      match response with
      | none => addBotMessage errorHtml [] st3
      | some (a, s) =>
          handleData mp query now st3 (jsOrEmptyStr a) (jsOrEmptyArr s)
    (setThinking false st4, true)

-- =======================
-- Helper lemmas
-- =======================

/-- A run headed by a non-whitespace character admits only the empty
`\s*` consumption. -/
theorem wsTails_of_not_ws {c : Char} (rest : List Char) (h : jsWs c = false) :
    wsTails (c :: rest) = [c :: rest] := by
  simp [wsTails, h]

/-- Prepending a whitespace run only adds further (lower-priority)
`\s*` alternatives after the existing ones. -/
theorem wsTails_ws_append (sp tail : List Char) (h : sp.all jsWs = true) :
    ∃ l, wsTails (sp ++ tail) = wsTails tail ++ l := by
  induction sp with
  | nil => exact ⟨[], by simp⟩
  | cons a sp ih =>
      simp only [List.all_cons, Bool.and_eq_true] at h
      obtain ⟨l, hl⟩ := ih h.2
      refine ⟨l ++ [a :: (sp ++ tail)], ?_⟩
      simp [wsTails, h.1, hl]

/-- A first-list success of `findSome?` is a success of the
concatenation. -/
theorem findSome_append_of_some {α β : Type} (f : α → Option β) {l1 : List α}
    (l2 : List α) {b : β} (h : l1.findSome? f = some b) :
    (l1 ++ l2).findSome? f = some b := by
  rw [List.findSome?_append, h]
  rfl

/-- A non-empty string has non-empty character data. -/
theorem data_ne_nil {s : String} (h : s ≠ "") : s.data ≠ [] := by
  intro h0
  exact h (String.ext (h0.trans rfl))

/-- Index-correctness of the rendered history list (length). -/
theorem renderHistoryFrom_length (h : List Exchange) :
    ∀ n, (renderHistoryFrom n h).length = h.length := by
  induction h with
  | nil => intro n; rfl
  | cons x t ih => intro n; simp [renderHistoryFrom, ih]

/-- Index-correctness of the rendered history list (entries). -/
theorem renderHistoryFrom_entry (h : List Exchange) :
    ∀ (n i : Nat) (e : Exchange), h[i]? = some e →
      (renderHistoryFrom n h)[i]?
        = some { label := n + i + 1, snippet := snippetOf e.query, time := e.time } := by
  induction h with
  | nil => intro n i e he; simp at he
  | cons x t ih =>
      intro n i e he
      cases i with
      | zero =>
          simp at he
          subst he
          simp [renderHistoryFrom]
      | succ j =>
          simp at he
          have := ih (n + 1) j e he
          simpa [renderHistoryFrom, Nat.add_assoc, Nat.add_comm 1 j] using this

-- =======================
-- Shared concrete states
-- =======================

/-- A fresh page with a non-blank query typed into the input. -/
def readyState : UIState :=
  { chatHistory := [], isThinking := false, queryValue := "What is delict?",
    messages := [], historyPanel := [], sourcesPanel := [],
    loadingShown := false, sendBtnDisabled := false, emptyStateShown := true }

/-- One recorded Exchange, as a concrete input. -/
def exchangeQ1 : Exchange :=
  { query := "q1", answer := "a1", sources := [], time := "10:00" }

/-- The page state after the round-trip that recorded `exchangeQ1`. -/
def stateAfterOneExchange : UIState :=
  { chatHistory := [exchangeQ1], isThinking := false, queryValue := "",
    messages := [Message.userMsg "q1", Message.botMsg "a1" []],
    historyPanel := renderHistory [exchangeQ1], sourcesPanel := [],
    loadingShown := false, sendBtnDisabled := true, emptyStateShown := false }

-- =======================
-- Claim theorems
-- =======================

/-- Claim C1, counterexample: the inline citation annotation is not
idempotent.  Annotating `"See AB"` for a source with citation `"AB"`
appends the marker button, whose text begins with `<`, not with a
bracketed index — so the guard `(?!\s*\[\d+\])` does not block a second
application, which inserts an additional marker. -/
theorem applyInlineCitations_not_idempotent :
    applyInlineCitations (applyInlineCitations "See AB" [{ citation := "AB" }])
        [{ citation := "AB" }]
      ≠ applyInlineCitations "See AB" [{ citation := "AB" }] := by
  decide

/-- Claim C1, amended: the annotation step skips occurrences already
immediately followed (up to whitespace) by a literal bracketed index
such as `[1]`, so a pre-bracketed text gains no marker; but the
annotation is not idempotent, because the marker it inserts is an HTML
button rather than a bare bracketed index, so re-applying it to its own
output inserts additional markers. -/
theorem applyInlineCitations_guard_only_brackets :
    applyInlineCitations "Smith v Jones AB [1] again" [{ citation := "AB" }]
        = "Smith v Jones AB [1] again"
    ∧ applyInlineCitations (applyInlineCitations "Held in AB." [{ citation := "AB" }])
        [{ citation := "AB" }]
      ≠ applyInlineCitations "Held in AB." [{ citation := "AB" }] := by
  constructor
  · decide
  · decide

/-- Claim C2 (code bug evidence): `resetConversation` never clears
`chatHistory`; after a reset with one recorded Exchange the conversation
state still holds that Exchange and the re-rendered history panel still
lists it, against the spec's "clears conversation state to empty /
empty history list" (the sibling reset handler in
`src/unnamed/part_000` does execute `chatHistory.length = 0`). -/
theorem resetConversation_keeps_exchanges :
    (resetConversation stateAfterOneExchange).chatHistory = [exchangeQ1]
    ∧ (resetConversation stateAfterOneExchange).historyPanel
        = [{ label := 1, snippet := "q1", time := "10:00" }]
    ∧ (resetConversation stateAfterOneExchange).historyPanel ≠ [] := by
  decide

/-- Claim C3: with a whitespace-only input, or while the in-flight flag
is set, `sendMessage` is a complete no-op — the state (messages,
history, input field, flags, panels) is returned unchanged and no
request is issued. -/
theorem sendMessage_gate_noop (mp : String → String) (now : String)
    (st : UIState) (resp : Option (JStrVal × JArrVal))
    (h : jsTrim st.queryValue = "" ∨ st.isThinking = true) :
    sendMessage mp now st resp = (st, false) := by
  simp only [sendMessage]
  rw [if_pos h]

/-- Witness for C3 at a concrete busy state. -/
theorem sendMessage_gate_noop_witness :
    sendMessage id "12:00" { readyState with isThinking := true } none
      = ({ readyState with isThinking := true }, false) :=
  sendMessage_gate_noop id "12:00" _ none (Or.inr rfl)

/-- Claim C4: on request failure exactly the user bubble and one error
bubble are appended, `chatHistory` and both panels are unchanged (the
failed turn leaves no Exchange record), the in-flight flag ends
cleared, and the request was issued. -/
theorem sendMessage_failure_single_error (mp : String → String) (now : String)
    (st : UIState) (h1 : jsTrim st.queryValue ≠ "") (h2 : st.isThinking = false) :
    (sendMessage mp now st none).1.messages
        = st.messages
            ++ [Message.userMsg (nlToBr (jsTrim st.queryValue)),
                Message.botMsg errorHtml []]
    ∧ (sendMessage mp now st none).1.chatHistory = st.chatHistory
    ∧ (sendMessage mp now st none).1.historyPanel = st.historyPanel
    ∧ (sendMessage mp now st none).1.sourcesPanel = st.sourcesPanel
    ∧ (sendMessage mp now st none).1.isThinking = false
    ∧ (sendMessage mp now st none).2 = true := by
  simp [sendMessage, h1, h2, setThinking, updateSendState, addUserMessage,
    addBotMessage, hideEmptyState]

/-- Witness for C4 at a concrete ready state. -/
theorem sendMessage_failure_witness :
    (sendMessage id "12:00" readyState none).1.messages
        = readyState.messages
            ++ [Message.userMsg (nlToBr (jsTrim readyState.queryValue)),
                Message.botMsg errorHtml []]
    ∧ (sendMessage id "12:00" readyState none).1.chatHistory = readyState.chatHistory
    ∧ (sendMessage id "12:00" readyState none).1.historyPanel = readyState.historyPanel
    ∧ (sendMessage id "12:00" readyState none).1.sourcesPanel = readyState.sourcesPanel
    ∧ (sendMessage id "12:00" readyState none).1.isThinking = false
    ∧ (sendMessage id "12:00" readyState none).2 = true :=
  sendMessage_failure_single_error id "12:00" readyState (by decide) (by decide)

/-- Claim C5, counterexample: the citation pattern is built with flag
`g` only — no `i` flag — so matching is case-SENSITIVE: the lower-case
occurrence `ab` of citation `AB` is not annotated. -/
theorem applyInlineCitations_case_sensitive :
    applyInlineCitations "see ab here" [{ citation := "AB" }] = "see ab here" := by
  decide

/-- Claim C5, amended: for every source with a non-empty citation the
match pattern matches occurrences of the citation verbatim and
case-sensitively, tolerating surrounding parentheses and extra
whitespace around the citation text (and still subject to the
bracketed-index guard). -/
theorem tryMatch_tolerates (src : Source) (sp sp2 rest : List Char)
    (hcit : citationOf src ≠ "")
    (hhead : (citationOf src).data.head?.all (fun ch => !jsWs ch) = true)
    (hsp : sp.all jsWs = true) (hsp2 : sp2.all jsWs = true)
    (hrest : lookaheadBlocks rest = false) :
    tryMatch (citationOf src).data
      ('(' :: (sp ++ (citationOf src).data ++ sp2 ++ ')' :: rest)) = some rest := by
  set c := (citationOf src).data with hc
  have hcne : c ≠ [] := data_ne_nil hcit
  obtain ⟨ch, c', hcc⟩ : ∃ ch c', c = ch :: c' := by
    cases hcase : c with
    | nil => exact absurd hcase hcne
    | cons ch c' => exact ⟨ch, c', rfl⟩
  have hchws : jsWs ch = false := by
    rw [hcc] at hhead
    simpa using hhead
  have hEF : matchEF (')' :: rest) = some rest := by
    simp [matchEF, hrest]
  have hDEF : matchDEF (sp2 ++ ')' :: rest) = some rest := by
    obtain ⟨l2, hl2⟩ := wsTails_ws_append sp2 (')' :: rest) hsp2
    have hw : wsTails (')' :: rest) = [')' :: rest] :=
      wsTails_of_not_ws rest (by decide)
    rw [matchDEF, hl2, hw]
    exact findSome_append_of_some matchEF l2 (by simp [List.findSome?, hEF])
  have hCDEF : matchCDEF c (c ++ (sp2 ++ ')' :: rest)) = some rest := by
    have hpre : c.isPrefixOf (c ++ (sp2 ++ ')' :: rest)) = true := by
      rw [List.isPrefixOf_iff_prefix]
      exact List.prefix_append c _
    rw [matchCDEF, if_pos hpre, List.drop_left]
    exact hDEF
  have hBCDEF : matchBCDEF c (sp ++ c ++ sp2 ++ ')' :: rest) = some rest := by
    obtain ⟨l1, hl1⟩ := wsTails_ws_append sp (c ++ (sp2 ++ ')' :: rest)) hsp
    have hw : wsTails (c ++ (sp2 ++ ')' :: rest)) = [c ++ (sp2 ++ ')' :: rest)] := by
      rw [hcc, List.cons_append]
      exact wsTails_of_not_ws _ hchws
    rw [matchBCDEF]
    rw [show sp ++ c ++ sp2 ++ ')' :: rest = sp ++ (c ++ (sp2 ++ ')' :: rest)) by simp]
    rw [hl1, hw]
    exact findSome_append_of_some _ l1 (by simp [List.findSome?, hCDEF])
  rw [tryMatch]
  rw [hBCDEF]
  simp

/-- Witness for C5 at a concrete citation, whitespace and tail. -/
theorem tryMatch_tolerates_witness :
    tryMatch (citationOf { citation := "AB" }).data
        ('(' :: ([' '] ++ (citationOf { citation := "AB" }).data ++ [' '] ++ ')' :: ['x']))
      = some ['x'] :=
  tryMatch_tolerates { citation := "AB" } [' '] [' '] ['x']
    (by decide) (by decide) (by decide) (by decide) (by decide)

/-- Claim C6, counterexample: an absent `case_name` renders the
placeholder "Unknown Case" on the side-panel card and "Case details" as
the modal title, and an absent `summary` renders the modal placeholder
"No summary available for this source." — so not every absent field is
omitted. -/
theorem renderPlaceholders_for_absent_fields :
    (renderSources [{}]).map SourceCard.caseName = ["Unknown Case"]
    ∧ (openSourceModalView {}).title = "Case details"
    ∧ (openSourceModalView {}).body = "No summary available for this source." := by
  decide

/-- Claim C6, amended: both views omit absent link, court and date
fields (in particular a Source with neither `saflii_url` nor `pdf_url`
renders with no link elements at all), but an absent `case_name`
renders the placeholders "Unknown Case" / "Case details" and an absent
`summary` renders a placeholder body in the modal. -/
theorem sourceViews_omit_optional (s : Source) :
    (s.saflii_url = "" → s.pdf_url = "" →
      (∀ i, (renderSourceCard i s).safliiLink = none ∧ (renderSourceCard i s).pdfLink = none)
      ∧ (openSourceModalView s).links = [])
    ∧ (s.court = "" → ∀ i, (renderSourceCard i s).courtShown = none)
    ∧ (s.judgment_date = "" → ∀ i, (renderSourceCard i s).dateShown = none)
    ∧ (s.case_name = "" →
        (∀ i, (renderSourceCard i s).caseName = "Unknown Case")
        ∧ (openSourceModalView s).title = "Case details")
    ∧ (s.summary = "" →
        (openSourceModalView s).body = "No summary available for this source.") := by
  refine ⟨fun h1 h2 => ⟨fun i => ⟨?_, ?_⟩, ?_⟩, fun h i => ?_, fun h i => ?_,
    fun h => ⟨fun i => ?_, ?_⟩, fun h => ?_⟩ <;>
    simp_all [renderSourceCard, openSourceModalView]

/-- Witness for C6 at the all-absent Source. -/
theorem sourceViews_omit_optional_witness :
    (openSourceModalView {}).links = []
    ∧ (renderSourceCard 0 ({} : Source)).safliiLink = none :=
  ⟨((sourceViews_omit_optional {}).1 rfl rfl).2,
   (((sourceViews_omit_optional {}).1 rfl rfl).1 0).1⟩

/-- Claim C7, counterexample: a malformed (truthy non-string) `answer`
is NOT treated as the empty string — with a citable source present,
`annotated.replace` throws and the turn takes the error path, unlike
the same response with `answer` equal to `""`. -/
theorem malformed_truthy_answer_not_as_empty :
    sendMessage id "12:00" readyState (some (.nonStr true, .arr [{ citation := "X" }]))
      ≠ sendMessage id "12:00" readyState (some (.str "", .arr [{ citation := "X" }])) := by
  decide

/-- Claim C7, amended: an absent (or otherwise falsy) `answer` is
treated exactly as the empty string and an absent (or otherwise falsy)
`sources` exactly as the empty sequence in all downstream processing —
the whole `sendMessage` outcome is identical. -/
theorem falsy_fields_default (mp : String → String) (now : String) (st : UIState)
    (ansJ : JStrVal) (srcJ : JArrVal) :
    sendMessage mp now st (some (.absent, srcJ))
        = sendMessage mp now st (some (.str "", srcJ))
    ∧ sendMessage mp now st (some (.nonStr false, srcJ))
        = sendMessage mp now st (some (.str "", srcJ))
    ∧ sendMessage mp now st (some (ansJ, .absent))
        = sendMessage mp now st (some (ansJ, .arr []))
    ∧ sendMessage mp now st (some (ansJ, .nonArr false))
        = sendMessage mp now st (some (ansJ, .arr [])) :=
  ⟨rfl, rfl, rfl, rfl⟩

/-- Claim C8: the history panel has one entry per Exchange, in order,
labelled 1-based from 1, and the query preview is the full query at up
to 60 characters and the first 60 characters plus an ellipsis marker
beyond that. -/
theorem renderHistory_entries :
    (∀ h : List Exchange, (renderHistory h).length = h.length)
    ∧ (∀ (h : List Exchange) (i : Nat) (e : Exchange), h[i]? = some e →
        (renderHistory h)[i]?
          = some { label := i + 1, snippet := snippetOf e.query, time := e.time })
    ∧ (∀ q : String,
        (q.length ≤ 60 → snippetOf q = q)
        ∧ (60 < q.length → snippetOf q = q.take 60 ++ "…")) := by
  refine ⟨fun h => renderHistoryFrom_length h 0, fun h i e he => ?_, fun q => ⟨?_, ?_⟩⟩
  · simpa [renderHistory] using renderHistoryFrom_entry h 0 i e he
  · intro hq; simp [snippetOf]; omega
  · intro hq; rw [snippetOf, if_pos hq]

/-- Witness for C8 at a one-Exchange history and a short query. -/
theorem renderHistory_entries_witness :
    (renderHistory [{ query := "ab", answer := "x", sources := [], time := "t" }])[0]?
        = some { label := 1, snippet := snippetOf "ab", time := "t" }
    ∧ snippetOf "ab" = "ab" :=
  ⟨renderHistory_entries.2.1 [{ query := "ab", answer := "x", sources := [], time := "t" }] 0
      { query := "ab", answer := "x", sources := [], time := "t" } rfl,
   (renderHistory_entries.2.2 "ab").1 (by decide)⟩

/-- Claim C9: the citation string used for annotation and display is
the non-empty `neutral_citation` when present, else the plain
`citation`; a source with neither is skipped by the annotation step,
and the side-panel card and modal meta line display the same preferred
citation. -/
theorem citation_preference (src : Source) :
    (src.neutral_citation ≠ "" → citationOf src = src.neutral_citation)
    ∧ (src.neutral_citation = "" → citationOf src = src.citation)
    ∧ (∀ (acc : String) (i : Nat), citationOf src = "" → annotateOne acc i src = acc)
    ∧ (∀ i, (renderSourceCard i src).citation = citationOf src)
    ∧ (citationOf src ≠ "" →
        (openSourceModalView src).metaParts.head? = some (citationOf src)) := by
  refine ⟨fun h => ?_, fun h => ?_, fun acc i h => ?_, fun i => ?_, fun h => ?_⟩
  · simp [citationOf, h]
  · simp [citationOf, h]
  · simp [annotateOne, h]
  · by_cases h1 : src.neutral_citation = "" <;> by_cases h2 : src.citation = "" <;>
      simp [renderSourceCard, citationOf, h1, h2]
  · by_cases h1 : src.neutral_citation = "" <;> by_cases h2 : src.citation = "" <;>
      simp_all [openSourceModalView, citationOf]

/-- Witness for C9 at a source with both citation forms and at the
all-absent source. -/
theorem citation_preference_witness :
    citationOf { neutral_citation := "N", citation := "C" } = "N"
    ∧ annotateOne "text" 0 ({} : Source) = "text" :=
  ⟨(citation_preference _).1 (by decide), (citation_preference _).2.2.1 "text" 0 (by decide)⟩

/-- Claim C10: a citation marker whose `data-source-index` does not
parse as a number, or is out of range of the message's own source list,
gets no click handler; and whenever a handler is attached, the Source
it captures really is at the parsed non-negative index of that list. -/
theorem wireCitation_safe (srcs : List Source) (attr : String) :
    (jsParseInt attr = none → wireCitation srcs attr = none)
    ∧ (∀ i : Int, jsParseInt attr = some i → (i < 0 ∨ srcs.length ≤ i.toNat) →
        wireCitation srcs attr = none)
    ∧ (∀ s : Source, wireCitation srcs attr = some s →
        ∃ i : Int, jsParseInt attr = some i ∧ 0 ≤ i ∧ srcs[i.toNat]? = some s) := by
  refine ⟨fun h => ?_, fun i hp hor => ?_, fun s h => ?_⟩
  · by_cases hs : srcs = [] <;> simp [wireCitation, hs, h]
  · by_cases hs : srcs = []
    · simp [wireCitation, hs]
    · by_cases hneg : i < 0
      · simp [wireCitation, hs, hp, hneg]
      · simp [wireCitation, hs, hp, hneg, List.getElem?_eq_none (hor.resolve_left hneg)]
  · by_cases hs : srcs = []
    · simp [wireCitation, hs] at h
    · cases hp : jsParseInt attr with
      | none => simp [wireCitation, hs, hp] at h
      | some i =>
          by_cases hneg : i < 0
          · simp [wireCitation, hs, hp, hneg] at h
          · refine ⟨i, rfl, Int.not_lt.mp hneg, ?_⟩
            simpa [wireCitation, hs, hp, hneg] using h

/-- Witness for C10 at a one-source list with a non-numeric and an
out-of-range index. -/
theorem wireCitation_safe_witness :
    wireCitation [{ case_name := "S" }] "abc" = none
    ∧ wireCitation [{ case_name := "S" }] "5" = none :=
  ⟨(wireCitation_safe _ "abc").1 (by decide),
   (wireCitation_safe _ "5").2.1 5 (by decide) (by decide)⟩
